import Mathlib

set_option linter.unusedVariables false

/-!
Verification of the nvda-bus-plugin broadcast bridge.

The development shallowly embeds the two Python sources:
  * `addon/globalPlugins/nvdaTextBridge.py` — the NVDA add-on: a speech hook
    (`_hook_speak`), text extraction (`get_text_from_speech_sequence`), a
    WebSocket broadcast (`broadcast`), a per-connection handler
    (`server_handler`), and a server starter (`GlobalPlugin.start_server`);
  * `udp_to_websocket_bridge.py` — the standalone bridge: a guarded
    per-client send (`send_to_client`), a UDP fan-out
    (`UDPServerProtocol.datagram_received`), and a per-connection handler
    (`websocket_handler`).

Connections are identified by an opaque id.  Transport behaviour of one
connection is abstracted by a function `fails : Client → Bool` saying whether
a raw send on that connection raises a transport error.  Fallible Python code
is embedded in `Except String`; the side effects of a fan-out (how many times
the JSON envelope was serialized, which client was sent which payload, the
per-send outcomes) are returned in an explicit `BroadcastEffect` record.
-/

namespace NvdaTextBridge

/-- One accepted WebSocket client connection, identified by an opaque id
(standing for the remote address / object identity of the Python object). -/
structure Client where
  id : Nat
deriving DecidableEq, Repr

/-- Whitespace characters stripped by Python `str.strip()` (ASCII subset:
space, tab, newline, carriage return, vertical tab, form feed). -/
def pyIsSpace (c : Char) : Bool :=
  c = ' ' || c = '\t' || c = '\n' || c = '\r' || c.toNat = 11 || c.toNat = 12

/-- Python `str.strip()`: drop leading and trailing whitespace. -/
def pyStrip (s : String) : String :=
  String.mk (((s.data.dropWhile pyIsSpace).reverse.dropWhile pyIsSpace).reverse)

/-- Lowercase hexadecimal digit. -/
def hexDigit (n : Nat) : Char :=
  if n < 10 then Char.ofNat (48 + n) else Char.ofNat (87 + n)

/-- Four lowercase hexadecimal digits, as written by `json.dumps` in a
`\uXXXX` escape. -/
def hex4 (n : Nat) : String :=
  String.mk [hexDigit (n / 4096 % 16), hexDigit (n / 256 % 16),
             hexDigit (n / 16 % 16), hexDigit (n % 16)]

/-- Escaping of one character of a JSON string by Python `json.dumps` with its
defaults (`ensure_ascii=True`): quote, backslash and the named control
characters get two-character escapes, other control characters and all
non-ASCII characters become `\uXXXX` (a surrogate pair beyond the BMP). -/
def jsonEscapeChar (c : Char) : String :=
  if c = '"' then "\\\""
  else if c = '\\' then "\\\\"
  else if c = '\n' then "\\n"
  else if c = '\r' then "\\r"
  else if c = '\t' then "\\t"
  else if c.toNat = 8 then "\\b"
  else if c.toNat = 12 then "\\f"
  else if c.toNat < 32 then "\\u" ++ hex4 c.toNat
  else if c.toNat < 127 then String.mk [c]
  else if c.toNat ≤ 65535 then "\\u" ++ hex4 c.toNat
  else
    "\\u" ++ hex4 (55296 + (c.toNat - 65536) / 1024)
      ++ "\\u" ++ hex4 (56320 + (c.toNat - 65536) % 1024)

/-- Escaping of a whole JSON string body by `json.dumps`. -/
def jsonEscape (s : String) : String :=
  String.join (s.data.map jsonEscapeChar)

/-- The wire envelope: `json.dumps(\x7b"type": "speech", "text": message\x7d)`
with the default separators, exactly as built by both `broadcast` (add-on) and
`datagram_received` (bridge). -/
def json_dumps_speech (message : String) : String :=
  "\x7b\"type\": \"speech\", \"text\": \"" ++ jsonEscape message ++ "\"\x7d"

/-- The raw `client.send(message)` of the websockets library: raises
`ConnectionClosed` (or another transport error, abstracted the same way) on a
connection whose transport has failed, returns normally otherwise. -/
def client_send (fails : Client → Bool) (client : Client) (message : String) :
    Except String Unit :=
  if fails client then Except.error "ConnectionClosed" else Except.ok ()

/-- First error value in a list of task results, in task order. -/
def firstError : List (Except String Unit) → Option String
  | [] => none
  | Except.error e :: _ => some e
  | Except.ok _ :: rest => firstError rest

/-- `asyncio.gather`: with `return_exceptions=True` every branch runs to
completion and exceptions are collected as ordinary result values, never
raised to the awaiter; with `return_exceptions=False` the first exception
propagates. -/
def gather (return_exceptions : Bool) (tasks : List (Except String Unit)) :
    Except String (List (Except String Unit)) :=
  if return_exceptions then Except.ok tasks
  else
    match firstError tasks with
    | some e => Except.error e
    | none => Except.ok tasks

/-- Observable side effects of one fan-out: how many times the JSON envelope
was serialized, which client was sent which payload, and the per-send
outcomes (errors as values). -/
structure BroadcastEffect where
  serializations : Nat
  sends : List (Client × String)
  outcomes : List (Except String Unit)
deriving Repr

/-- Add-on `broadcast(message)`:

```
if clients:
    json_message = json.dumps({"type": "speech", "text": message})
    current_clients = list(clients)
    tasks = [client.send(json_message) for client in current_clients]
    if tasks:
        await asyncio.gather(*tasks, return_exceptions=True)
```

`clients` is the snapshot the call operates on; the `Except` layer is what the
caller of `broadcast` can observe being raised. -/
def broadcast (clients : List Client) (fails : Client → Bool) (message : String) :
    Except String BroadcastEffect :=
  if clients.isEmpty then
    Except.ok { serializations := 0, sends := [], outcomes := [] }
  else
    let json_message := json_dumps_speech message
    let current_clients := clients
    let tasks := current_clients.map (fun client => client_send fails client json_message)
    if tasks.isEmpty then
      Except.ok { serializations := 1, sends := [], outcomes := [] }
    else
      match gather true tasks with
      | Except.error e => Except.error e
      | Except.ok outcomes =>
          Except.ok { serializations := 1
                    , sends := current_clients.map (fun client => (client, json_message))
                    , outcomes := outcomes }

/-- Bridge `send_to_client(client, message)`: tries `client.send` and catches
both `ConnectionClosed` and every other `Exception` (logging only), so it
never raises to its caller. -/
def send_to_client (fails : Client → Bool) (client : Client) (message : String) :
    Except String Unit :=
  match client_send fails client message with
  | Except.ok _ => Except.ok ()
  | Except.error _ => Except.ok ()

/-- Bridge `UDPServerProtocol.datagram_received(data, addr)`: decodes the
datagram, serializes the JSON envelope, copies the client set, then fires one
`send_to_client` task per snapshotted client.  Note the envelope is built
before the emptiness check, so serialization happens even with no clients. -/
def datagram_received (connected_clients : List Client) (fails : Client → Bool)
    (data : String) : BroadcastEffect :=
  let message_content := data
  let json_payload := json_dumps_speech message_content
  let clients_to_send := connected_clients
  { serializations := 1
  , sends := clients_to_send.map (fun client => (client, json_payload))
  , outcomes := clients_to_send.map (fun client => send_to_client fails client json_payload) }

/-- Python `set.add`: insert if absent; inserting a present member leaves the
set unchanged (no error).  Both sources keep their client registry in a plain
Python `set` (`clients` in the add-on, `connected_clients` in the bridge),
modelled here as a duplicate-free list. -/
def pySetAdd (s : List Client) (c : Client) : List Client :=
  if c ∈ s then s else s ++ [c]

/-- Python `set.remove`: remove a present member; raise `KeyError` when the
member is absent (Python's no-op removal would be `set.discard`, which
neither source uses). -/
def pySetRemove (s : List Client) (c : Client) : Except String (List Client) :=
  if c ∈ s then Except.ok (s.filter (fun x => x ≠ c)) else Except.error "KeyError"

/-- A mutation of the client registry. -/
inductive RegOp where
  | add (c : Client)
  | remove (c : Client)
deriving DecidableEq, Repr

/-- Number of `remove c` operations in a registry trace. -/
def countRemove (c : Client) (ops : List RegOp) : Nat :=
  (ops.filter (fun op => op = RegOp.remove c)).length

/-- Registry-mutation trace of the add-on `server_handler(websocket, path)`:
adds the connection on entry (under `clients_lock`); the `async for` body only
prints and mutates nothing; `except ConnectionClosed: pass` and
`except Exception` swallow every body exception without touching the registry;
the `finally` block removes the connection (under the lock), once.  `body`
records how the receive loop ended (normally or by an exception). -/
def server_handler_ops (websocket : Client) (body : Except String Unit) : List RegOp :=
  [RegOp.add websocket]
    ++ (match body with
        | Except.ok _ => []
        | Except.error _ => [])
    ++ [RegOp.remove websocket]

/-- Registry-mutation trace of the bridge `websocket_handler(websocket)`:
adds the connection, awaits `websocket.wait_closed()` (no registry mutation,
`except ConnectionClosedError` swallowed), and removes it in `finally`,
once. -/
def websocket_handler_ops (websocket : Client) (body : Except String Unit) : List RegOp :=
  [RegOp.add websocket]
    ++ (match body with
        | Except.ok _ => []
        | Except.error _ => [])
    ++ [RegOp.remove websocket]

/-- Registry-mutation trace of one add-on `broadcast` call: the snapshot
`list(clients)` only reads the registry, and per-send failures are absorbed by
`gather(..., return_exceptions=True)`, so the send path performs no add or
remove whatsoever. -/
def broadcast_regops (clients : List Client) (fails : Client → Bool)
    (message : String) : List RegOp :=
  []

/-- Registry-mutation trace of one bridge `send_to_client` call: both except
clauses only log (the comment in the source defers removal to
`websocket_handler`'s `finally`), so the send path performs no add or
remove. -/
def send_to_client_regops (fails : Client → Bool) (client : Client)
    (message : String) : List RegOp :=
  []

/-- State of the add-on's asyncio event loop object, as the rest of the
program can observe it: the add-on either has not created it yet
(`loop = None`), or has a loop that is running, or has called `loop.stop()`
at termination — the source never calls `loop.close()` (that call is
commented out). -/
inductive LoopState where
  | running
  | stopped
deriving DecidableEq, Repr

/-- The add-on's module-level mutable state seen by the speech hook: the
`loop` global, the `clients` set, and the queue of broadcast coroutines
scheduled onto the loop (in the order `call_soon_threadsafe` enqueued
them). -/
structure BridgeState where
  loop : Option LoopState
  clients : List Client
  queue : List String
deriving DecidableEq, Repr

/-- `asyncio.run_coroutine_threadsafe(broadcast(text), loop)`: hands the
coroutine to the loop through `call_soon_threadsafe`, which appends it to the
loop's FIFO ready queue and returns at once without waiting.  This succeeds
for a running loop and also for a stopped (but not closed) loop — the entry
is queued but never executed.  The source never closes the loop, so the
`loop = none` branch is unreachable under the hook's `if loop` guard. -/
def run_coroutine_threadsafe (st : BridgeState) (message : String) :
    Except String BridgeState :=
  match st.loop with
  | none => Except.error "AttributeError"
  | some _ => Except.ok { st with queue := st.queue ++ [message] }

/-- The cross-thread dispatch as the hook performs it
(`if loop and clients: asyncio.run_coroutine_threadsafe(broadcast(text), loop)`):
the guard tests that the `loop` global is set (truthy object) and that the
client set is non-empty; it does not test whether the loop is running. -/
def post (st : BridgeState) (message : String) : Except String BridgeState :=
  if st.loop.isSome && !st.clients.isEmpty then
    run_coroutine_threadsafe st message
  else
    Except.ok st

/-- One item of an NVDA speech sequence, as `get_text_from_speech_sequence`
distinguishes them: a plain string, a `TextInfo` whose `.text` property
either yields a string or raises, or any other (control) item. -/
inductive SpeechItem where
  | str (s : String)
  | textInfo (text : Except String String)
  | other

/-- The loop body of `get_text_from_speech_sequence`: walk the sequence left
to right, appending strings and `TextInfo.text` values and skipping other
items.  The function body has no try/except, so an exception from a
`TextInfo.text` access propagates out. -/
def collect_text_parts : List SpeechItem → Except String (List String)
  | [] => Except.ok []
  | SpeechItem.str s :: rest => do
      let parts ← collect_text_parts rest
      Except.ok (s :: parts)
  | SpeechItem.textInfo t :: rest => do
      let s ← t
      let parts ← collect_text_parts rest
      Except.ok (s :: parts)
  | SpeechItem.other :: rest => collect_text_parts rest

/-- Add-on `get_text_from_speech_sequence(speechSequence)`: join the collected
parts with no separator and strip surrounding whitespace. -/
def get_text_from_speech_sequence (speechSequence : List SpeechItem) :
    Except String String := do
  let text_parts ← collect_text_parts speechSequence
  Except.ok (pyStrip (String.join text_parts))

/-- Add-on `GlobalPlugin._hook_speak(speechSequence, ...)`:

```
text = get_text_from_speech_sequence(speechSequence)
if text:
    if loop and clients:
        asyncio.run_coroutine_threadsafe(broadcast(text), loop)
return self._original_speak(speechSequence, *args, **kwargs)
```

There is no try/except anywhere in the hook, so an exception raised by the
extraction (or the dispatch) propagates to NVDA and the original speak is
never reached.  The returned `Bool` is `true` exactly when the original
callback was invoked (its own result is opaque here). -/
def hook_speak (st : BridgeState) (speechSequence : List SpeechItem) :
    Except String (BridgeState × Bool) := do
  let text ← get_text_from_speech_sequence speechSequence
  let st2 ←
    if text ≠ "" then post st text
    else Except.ok st
  Except.ok (st2, true)

/-- The event-loop thread draining its FIFO ready queue (`run_forever`):
each queued message is broadcast in queue order, producing the trace of
broadcast executions. -/
def loop_broadcasts (clients : List Client) (fails : Client → Bool)
    (queue : List String) : List (String × Except String BroadcastEffect) :=
  queue.map (fun m => (m, broadcast clients fails m))

/-- Liveness of the `threading.Thread` backing the server, as
`Thread.is_alive()` reports it: alive from `start()` until its `run` returns. -/
inductive ThreadState where
  | alive
  | dead
deriving DecidableEq, Repr

/-- The plugin state `start_server` consults and updates: the
`self.server_thread` attribute (initially `None`) plus a count of how many
threads (and hence attempted listening sockets) have been created. -/
structure PluginState where
  server_thread : Option ThreadState
  threads_created : Nat
deriving DecidableEq, Repr

/-- Add-on `GlobalPlugin.start_server()`:

```
if self.server_thread is None or not self.server_thread.is_alive():
    self.server_thread = threading.Thread(target=start_websocket_server, daemon=True)
    self.server_thread.start()
```

After `Thread.start()` returns the thread is alive. -/
def start_server (st : PluginState) : PluginState :=
  if st.server_thread = none || st.server_thread = some ThreadState.dead then
    { server_thread := some ThreadState.alive
    , threads_created := st.threads_created + 1 }
  else
    st

/-- The text contribution of one speech-sequence item whose access does not
raise: strings and successful TextInfo texts contribute, control items are
skipped. -/
def itemText : SpeechItem → Option String
  | SpeechItem.str s => some s
  | SpeechItem.textInfo (Except.ok s) => some s
  | SpeechItem.textInfo (Except.error _) => none
  | SpeechItem.other => none

/-- Whether accessing an item's text raises. -/
def itemRaises : SpeechItem → Bool
  | SpeechItem.textInfo (Except.error _) => true
  | _ => false

/-- Modelled from the spec and claim wording, for comparison with the source
extraction: the separator-free concatenation of the sequence's string items
and TextInfo texts, with leading and trailing whitespace stripped. -/
def spec_extracted_text (seq : List SpeechItem) : String :=
  pyStrip (String.join (seq.filterMap itemText))

theorem broadcast_eq_of_ne_nil (clients : List Client) (fails : Client → Bool)
    (message : String) (h : clients ≠ []) :
    broadcast clients fails message
      = Except.ok
          { serializations := 1
          , sends := clients.map (fun c => (c, json_dumps_speech message))
          , outcomes :=
              clients.map (fun c => client_send fails c (json_dumps_speech message)) } := by
  obtain ⟨c0, cs, rfl⟩ : ∃ c0 cs, clients = c0 :: cs := by
    cases clients with
    | nil => exact absurd rfl h
    | cons a l => exact ⟨a, l, rfl⟩
  simp [broadcast, gather]

theorem send_to_client_never_raises (fails : Client → Bool) (client : Client)
    (message : String) : send_to_client fails client message = Except.ok () := by
  unfold send_to_client client_send
  by_cases hf : fails client <;> simp [hf]

/-- C1: over a non-empty snapshot, a transport failure on any one connection
neither prevents any other snapshotted connection from being sent the message
nor raises an exception to the caller of the fan-out: the add-on `broadcast`
returns normally (`gather` with `return_exceptions=True` turns every failure
into a value) with one send per snapshotted client, and the bridge wrapper
`send_to_client` returns normally on every connection whatsoever. -/
theorem broadcast_failure_isolated (clients : List Client) (fails : Client → Bool)
    (message : String) (c : Client) (m : String) (h : clients ≠ []) :
    broadcast clients fails message
      = Except.ok
          { serializations := 1
          , sends := clients.map (fun x => (x, json_dumps_speech message))
          , outcomes :=
              clients.map (fun x => client_send fails x (json_dumps_speech message)) } ∧
    send_to_client fails c m = Except.ok () :=
  ⟨broadcast_eq_of_ne_nil clients fails message h,
   send_to_client_never_raises fails c m⟩

/-- C1 witness: two clients, the first of which fails; the broadcast still
returns normally and both clients appear in the send list. -/
theorem broadcast_failure_isolated_witness :
    broadcast [{ id := 0 }, { id := 1 }] (fun c => c.id == 0) "hi"
      = Except.ok
          { serializations := 1
          , sends := [{ id := 0 }, { id := 1 }].map
              (fun x => (x, json_dumps_speech "hi"))
          , outcomes := [{ id := 0 }, { id := 1 }].map
              (fun x => client_send (fun c => c.id == 0) x (json_dumps_speech "hi")) } ∧
    send_to_client (fun c => c.id == 0) { id := 0 } "m" = Except.ok () :=
  broadcast_failure_isolated [{ id := 0 }, { id := 1 }] (fun c => c.id == 0)
    "hi" { id := 0 } "m" (by decide)

/-- C4 counterexample: the bridge datagram path (`datagram_received`) builds
the JSON envelope before checking whether any client is connected, so a
fan-out over an empty snapshot still performs one serialization, refuting the
claim that no serialization of the message is performed. -/
theorem datagram_empty_still_serializes :
    (datagram_received [] (fun _ => false) "hello").serializations = 1 ∧
    ¬ (datagram_received [] (fun _ => false) "hello").serializations = 0 :=
  ⟨rfl, by decide⟩

/-- C4 (amended): with an empty snapshot nothing is sent to any client in
either variant; the add-on `broadcast` returns immediately without
serializing, while the bridge datagram path serializes the envelope once
before discovering the empty client set but still sends nothing. -/
theorem empty_snapshot_sends_nothing (fails : Client → Bool) (message : String) :
    broadcast [] fails message
        = Except.ok { serializations := 0, sends := [], outcomes := [] } ∧
    (datagram_received [] fails message).serializations = 1 ∧
    (datagram_received [] fails message).sends = [] ∧
    (datagram_received [] fails message).outcomes = [] :=
  ⟨rfl, rfl, rfl, rfl⟩

/-- C5: over a non-empty snapshot, both variants serialize the envelope
`\x7b"type": "speech", "text": <captured text>\x7d` exactly once per fan-out
and send that one identical string to every snapshotted client. -/
theorem broadcast_serializes_once (clients : List Client) (fails : Client → Bool)
    (text : String) (h : clients ≠ []) :
    broadcast clients fails text
      = Except.ok
          { serializations := 1
          , sends := clients.map (fun c => (c, json_dumps_speech text))
          , outcomes :=
              clients.map (fun c => client_send fails c (json_dumps_speech text)) } ∧
    (datagram_received clients fails text).serializations = 1 ∧
    (datagram_received clients fails text).sends
        = clients.map (fun c => (c, json_dumps_speech text)) :=
  ⟨broadcast_eq_of_ne_nil clients fails text h, rfl, rfl⟩

/-- C5 witness: one concrete broadcast of "hello" to two clients. -/
theorem broadcast_serializes_once_witness :
    broadcast [{ id := 3 }, { id := 4 }] (fun _ => false) "hello"
      = Except.ok
          { serializations := 1
          , sends := [{ id := 3 }, { id := 4 }].map
              (fun c => (c, json_dumps_speech "hello"))
          , outcomes := [{ id := 3 }, { id := 4 }].map
              (fun c => client_send (fun _ => false) c (json_dumps_speech "hello")) } ∧
    (datagram_received [{ id := 3 }, { id := 4 }] (fun _ => false) "hello").serializations = 1 ∧
    (datagram_received [{ id := 3 }, { id := 4 }] (fun _ => false) "hello").sends
        = [{ id := 3 }, { id := 4 }].map (fun c => (c, json_dumps_speech "hello")) :=
  broadcast_serializes_once [{ id := 3 }, { id := 4 }] (fun _ => false) "hello" (by decide)

/-- C6 counterexample: removing an absent connection from the registry is not
a no-op — Python `set.remove` raises KeyError on an absent member, and both
sources use `remove`, not `discard`. -/
theorem remove_absent_raises :
    pySetRemove ([] : List Client) { id := 0 } = Except.error "KeyError" := rfl

/-- C6 (amended): adding an already-present connection leaves the registry
unchanged without error (add is idempotent), and removing a present member
succeeds, but removing an absent member raises KeyError instead of being a
no-op. -/
theorem registry_add_idempotent_remove_strict (s : List Client) (c : Client) :
    pySetAdd (pySetAdd s c) c = pySetAdd s c ∧
    (c ∈ s → pySetAdd s c = s) ∧
    (c ∈ s → pySetRemove s c = Except.ok (s.filter (fun x => x ≠ c))) ∧
    (c ∉ s → pySetRemove s c = Except.error "KeyError") := by
  refine ⟨?_, fun hc => by simp [pySetAdd, hc],
    fun hc => by simp [pySetRemove, hc], fun hc => by simp [pySetRemove, hc]⟩
  by_cases hc : c ∈ s
  · simp [pySetAdd, hc]
  · simp [pySetAdd, hc]

/-- C6 witness: idempotent re-add of a present member, and a KeyError on
removing from the empty registry. -/
theorem registry_add_idempotent_remove_strict_witness :
    pySetAdd [{ id := 0 }] { id := 0 } = [{ id := 0 }] ∧
    pySetRemove ([] : List Client) { id := 1 } = Except.error "KeyError" :=
  ⟨(registry_add_idempotent_remove_strict [{ id := 0 }] { id := 0 }).2.1 (by decide),
   (registry_add_idempotent_remove_strict [] { id := 1 }).2.2.2 (by decide)⟩

/-- C2 (code bug): `_hook_speak` contains no try/except, so when extracting
the text raises (here a TextInfo whose `.text` access raises a COMError), the
exception propagates out of the hook and the previously-installed original
speak callback is never invoked: the hook produces no `(state, true)` result
at all, only the escaped exception. -/
theorem hook_speak_extraction_error_skips_original :
    hook_speak { loop := some LoopState.running, clients := [{ id := 0 }], queue := [] }
      [SpeechItem.textInfo (Except.error "COMError")]
      = Except.error "COMError" := rfl

/-- C7 counterexample: with a client connected and the loop object still set
but stopped (the add-on's terminate stops the loop without clearing the
global or closing the loop), `post` enqueues the broadcast onto the stopped
loop — it queues something, so it is not a no-op. -/
theorem post_stopped_loop_queues :
    post { loop := some LoopState.stopped, clients := [{ id := 0 }], queue := [] } "x"
      = Except.ok { loop := some LoopState.stopped, clients := [{ id := 0 }], queue := ["x"] } ∧
    (["x"] : List String) ≠ [] :=
  ⟨rfl, by decide⟩

/-- C7 (amended): `post` is a silent no-op when the loop has never been
created in this session (the `loop` global is None) or when no client is
connected; but when the loop object exists and has merely been stopped,
`post` does not raise and does not block, yet it does enqueue the broadcast
onto the stopped loop, where it never executes — the guard tests the loop's
existence, not whether it is running. -/
theorem post_noop_only_when_no_loop_or_no_clients (st : BridgeState) (m : String) :
    (st.loop = none → post st m = Except.ok st) ∧
    (st.clients = [] → post st m = Except.ok st) ∧
    (st.loop = some LoopState.stopped → st.clients ≠ [] →
        post st m = Except.ok { st with queue := st.queue ++ [m] }) := by
  refine ⟨fun hl => by simp [post, hl], fun hc => by simp [post, hc], fun hl hc => ?_⟩
  cases hcl : st.clients with
  | nil => exact absurd hcl hc
  | cons a l => simp [post, run_coroutine_threadsafe, hl, hcl]

/-- C7 witness: the three cases at concrete states. -/
theorem post_noop_only_when_no_loop_or_no_clients_witness :
    post { loop := none, clients := [{ id := 0 }], queue := [] } "m"
        = Except.ok { loop := none, clients := [{ id := 0 }], queue := [] } ∧
    post { loop := some LoopState.running, clients := [], queue := [] } "m"
        = Except.ok { loop := some LoopState.running, clients := [], queue := [] } ∧
    post { loop := some LoopState.stopped, clients := [{ id := 1 }], queue := [] } "m"
        = Except.ok { loop := some LoopState.stopped, clients := [{ id := 1 }], queue := ["m"] } :=
  ⟨(post_noop_only_when_no_loop_or_no_clients _ "m").1 rfl,
   (post_noop_only_when_no_loop_or_no_clients _ "m").2.1 rfl,
   (post_noop_only_when_no_loop_or_no_clients _ "m").2.2 rfl (by decide)⟩

theorem except_bind_ok {α β : Type} (a : α) (f : α → Except String β) :
    (Except.ok a : Except String α) >>= f = f a := rfl

theorem collect_text_parts_ok (seq : List SpeechItem)
    (h : ∀ i ∈ seq, itemRaises i = false) :
    collect_text_parts seq = Except.ok (seq.filterMap itemText) := by
  induction seq with
  | nil => rfl
  | cons i rest ih =>
    have hrest : ∀ j ∈ rest, itemRaises j = false :=
      fun j hj => h j (List.mem_cons_of_mem _ hj)
    cases i with
    | str s =>
      simp [collect_text_parts, ih hrest, itemText, List.filterMap_cons, except_bind_ok]
    | textInfo t =>
      cases t with
      | ok s =>
        simp [collect_text_parts, ih hrest, itemText, List.filterMap_cons, except_bind_ok]
      | error e =>
        have := h _ (List.mem_cons_self _ _)
        simp [itemRaises] at this
    | other =>
      simp [collect_text_parts, ih hrest, itemText, List.filterMap_cons, except_bind_ok]

/-- C10: when no item access raises, the hook extracts exactly the
separator-free concatenation of the string items and TextInfo texts, stripped
of surrounding whitespace, and schedules a broadcast if and only if that text
is non-empty, the loop object exists, and the client set is non-empty at the
moment of the call; otherwise the event is dropped — the state (and in
particular the loop's queue) is left unchanged, so nothing is retained for
later delivery — while the original speak callback runs either way. -/
theorem hook_schedules_iff (st : BridgeState) (seq : List SpeechItem)
    (h : ∀ i ∈ seq, itemRaises i = false) :
    get_text_from_speech_sequence seq = Except.ok (spec_extracted_text seq) ∧
    hook_speak st seq
      = Except.ok
          ({ st with queue := st.queue ++
              (if spec_extracted_text seq ≠ "" ∧ st.loop.isSome = true ∧ st.clients ≠ []
               then [spec_extracted_text seq] else []) }, true) := by
  have hext : get_text_from_speech_sequence seq = Except.ok (spec_extracted_text seq) := by
    simp [get_text_from_speech_sequence, collect_text_parts_ok seq h, spec_extracted_text,
      except_bind_ok]
  refine ⟨hext, ?_⟩
  unfold hook_speak
  rw [hext]
  by_cases ht : spec_extracted_text seq = ""
  · simp [ht, except_bind_ok]
  · cases hl : st.loop with
    | none =>
      simp [ht, hl, post, except_bind_ok]
      rw [← hl]
    | some l =>
      cases hcl : st.clients with
      | nil =>
        simp [ht, hl, hcl, post, except_bind_ok]
        rw [← hl, ← hcl]
      | cons a cl => simp [ht, hl, hcl, post, run_coroutine_threadsafe, except_bind_ok]

/-- C10 witness: a sequence extracting "hi" with a running loop and one
client schedules exactly one broadcast of "hi". -/
theorem hook_schedules_iff_witness :
    get_text_from_speech_sequence [SpeechItem.str " hi ", SpeechItem.other]
        = Except.ok (spec_extracted_text [SpeechItem.str " hi ", SpeechItem.other]) ∧
    hook_speak { loop := some LoopState.running, clients := [{ id := 0 }], queue := [] }
        [SpeechItem.str " hi ", SpeechItem.other]
      = Except.ok
          ({ loop := some LoopState.running, clients := [{ id := 0 }]
           , queue := [] ++
              (if spec_extracted_text [SpeechItem.str " hi ", SpeechItem.other] ≠ ""
                  ∧ (some LoopState.running).isSome = true
                  ∧ ([{ id := 0 }] : List Client) ≠ []
               then [spec_extracted_text [SpeechItem.str " hi ", SpeechItem.other]] else []) }, true) :=
  hook_schedules_iff
    { loop := some LoopState.running, clients := [{ id := 0 }], queue := [] }
    [SpeechItem.str " hi ", SpeechItem.other]
    (by intro i hi; cases hi with
        | head => rfl
        | tail _ hi2 => cases hi2 with
          | head => rfl
          | tail _ hi3 => cases hi3)

/-- C3: when the send to a member connection fails during a broadcast, the
failure surfaces only as an error value among the fan-out's outcomes (the
broadcast still returns normally), the send path performs no registry
mutation at all, and the connection is removed from the registry exactly once
— by its own handler's finally block — even though both the send-failure path
and the peer-close-detection path run for that connection; this holds in the
add-on (`broadcast` + `server_handler`) and in the bridge (`send_to_client` +
`websocket_handler`) alike. -/
theorem send_failure_removed_exactly_once (c : Client) (clients : List Client)
    (fails : Client → Bool) (message : String) (body : Except String Unit)
    (hc : c ∈ clients) (hf : fails c = true) :
    broadcast clients fails message
      = Except.ok
          { serializations := 1
          , sends := clients.map (fun x => (x, json_dumps_speech message))
          , outcomes :=
              clients.map (fun x => client_send fails x (json_dumps_speech message)) } ∧
    Except.error "ConnectionClosed"
        ∈ clients.map (fun x => client_send fails x (json_dumps_speech message)) ∧
    broadcast_regops clients fails message = [] ∧
    send_to_client_regops fails c message = [] ∧
    countRemove c (broadcast_regops clients fails message ++ server_handler_ops c body) = 1 ∧
    countRemove c (send_to_client_regops fails c message ++ websocket_handler_ops c body) = 1 := by
  refine ⟨broadcast_eq_of_ne_nil clients fails message (List.ne_nil_of_mem hc),
    ?_, rfl, rfl, ?_, ?_⟩
  · exact List.mem_map.2 ⟨c, hc, by simp [client_send, hf]⟩
  · cases body <;>
      simp [countRemove, broadcast_regops, server_handler_ops, List.filter]
  · cases body <;>
      simp [countRemove, send_to_client_regops, websocket_handler_ops, List.filter]

/-- C3 witness: two clients, the send to the first fails, its handler ended
with a ConnectionClosed error; removal still happens exactly once. -/
theorem send_failure_removed_exactly_once_witness :
    broadcast [{ id := 0 }, { id := 1 }] (fun x => x.id == 0) "msg"
      = Except.ok
          { serializations := 1
          , sends := [{ id := 0 }, { id := 1 }].map
              (fun x => (x, json_dumps_speech "msg"))
          , outcomes := [{ id := 0 }, { id := 1 }].map
              (fun x => client_send (fun x => x.id == 0) x (json_dumps_speech "msg")) } ∧
    Except.error "ConnectionClosed"
        ∈ [{ id := 0 }, { id := 1 }].map
            (fun x => client_send (fun x => x.id == 0) x (json_dumps_speech "msg")) ∧
    broadcast_regops [{ id := 0 }, { id := 1 }] (fun x => x.id == 0) "msg" = [] ∧
    send_to_client_regops (fun x => x.id == 0) { id := 0 } "msg" = [] ∧
    countRemove { id := 0 }
        (broadcast_regops [{ id := 0 }, { id := 1 }] (fun x => x.id == 0) "msg"
          ++ server_handler_ops { id := 0 } (Except.error "ConnectionClosed")) = 1 ∧
    countRemove { id := 0 }
        (send_to_client_regops (fun x => x.id == 0) { id := 0 } "msg"
          ++ websocket_handler_ops { id := 0 } (Except.error "ConnectionClosed")) = 1 :=
  send_failure_removed_exactly_once { id := 0 } [{ id := 0 }, { id := 1 }]
    (fun x => x.id == 0) "msg" (Except.error "ConnectionClosed")
    (by decide) (by decide)

/-- C8: two messages posted in order by the same calling thread are appended
to the loop's FIFO ready queue in that order (each `post` returning to the
caller at once), and the loop thread broadcasts its queue in queue order, so
the first message is broadcast before the second; nothing is claimed about
interleavings of different producer threads. -/
theorem same_thread_posts_broadcast_in_order (st : BridgeState) (m1 m2 : String)
    (clients : List Client) (fails : Client → Bool)
    (hl : st.loop.isSome = true) (hc : st.clients ≠ []) :
    post st m1 = Except.ok { st with queue := st.queue ++ [m1] } ∧
    post { st with queue := st.queue ++ [m1] } m2
        = Except.ok { st with queue := st.queue ++ [m1, m2] } ∧
    loop_broadcasts clients fails (st.queue ++ [m1, m2])
        = loop_broadcasts clients fails st.queue
            ++ [(m1, broadcast clients fails m1), (m2, broadcast clients fails m2)] := by
  obtain ⟨l, hll⟩ : ∃ l, st.loop = some l := by
    cases hll : st.loop with
    | none => rw [hll] at hl; cases hl
    | some l => exact ⟨l, rfl⟩
  obtain ⟨a, cl, hcl⟩ : ∃ a cl, st.clients = a :: cl := by
    cases hcl : st.clients with
    | nil => exact absurd hcl hc
    | cons a cl => exact ⟨a, cl, rfl⟩
  refine ⟨by simp [post, run_coroutine_threadsafe, hll, hcl], ?_, ?_⟩
  · simp [post, run_coroutine_threadsafe, hll, hcl]
  · simp [loop_broadcasts]

/-- C8 witness: posting "a" then "b" from one thread onto a running loop with
one client yields the queue ["a", "b"], broadcast in that order. -/
theorem same_thread_posts_broadcast_in_order_witness :
    post { loop := some LoopState.running, clients := [{ id := 0 }], queue := [] } "a"
        = Except.ok { loop := some LoopState.running, clients := [{ id := 0 }], queue := ["a"] } ∧
    post { loop := some LoopState.running, clients := [{ id := 0 }], queue := ["a"] } "b"
        = Except.ok { loop := some LoopState.running, clients := [{ id := 0 }], queue := ["a", "b"] } ∧
    loop_broadcasts [{ id := 0 }] (fun _ => false) ["a", "b"]
        = loop_broadcasts [{ id := 0 }] (fun _ => false) []
            ++ [("a", broadcast [{ id := 0 }] (fun _ => false) "a"),
                ("b", broadcast [{ id := 0 }] (fun _ => false) "b")] :=
  same_thread_posts_broadcast_in_order
    { loop := some LoopState.running, clients := [{ id := 0 }], queue := [] }
    "a" "b" [{ id := 0 }] (fun _ => false) rfl (by decide)

/-- C9: `start_server` is idempotent — when the backing thread is alive the
call is a no-op, and a second call without an intervening stop changes
nothing over a single call: in particular the thread-creation (and hence
listening-socket) count does not grow. -/
theorem start_server_idempotent (st : PluginState) :
    (st.server_thread = some ThreadState.alive → start_server st = st) ∧
    start_server (start_server st) = start_server st ∧
    (start_server (start_server st)).threads_created
        = (start_server st).threads_created := by
  refine ⟨fun h => by simp [start_server, h], ?_, ?_⟩
  · cases h : st.server_thread with
    | none => simp [start_server, h]
    | some t => cases t <;> simp [start_server, h]
  · cases h : st.server_thread with
    | none => simp [start_server, h]
    | some t => cases t <;> simp [start_server, h]

/-- C9 witness: a no-op on an alive thread, and a double start from the
initial state equal to a single start. -/
theorem start_server_idempotent_witness :
    start_server { server_thread := some ThreadState.alive, threads_created := 1 }
        = { server_thread := some ThreadState.alive, threads_created := 1 } ∧
    start_server (start_server { server_thread := none, threads_created := 0 })
        = start_server { server_thread := none, threads_created := 0 } :=
  ⟨(start_server_idempotent _).1 rfl,
   (start_server_idempotent { server_thread := none, threads_created := 0 }).2.1⟩

end NvdaTextBridge
